import Mathlib

/-
Verification of the EAV result-value library (src/mod.ts, second draft:
the `Err` class with a `cause` field, the recursive `isErr`, `Ok`,
`CaptureErr(name, callback, message?)` and `UnwrapErr`).

Shallow embedding notes.

Runtime values are modelled by the inductive type `Val`: the primitives
that matter to the library (`undefined`, `null`, booleans, numbers,
strings) and Error objects.  An Error object is modelled by the `error`
constructor carrying the value read from its `name` property (`none`
when that read yields `undefined`), the value read from its `message`
property (the string default is the empty string, as in `Error.prototype.message`),
and the value stored in its `cause` property (`Val.undefined` when the
property is absent or undefined, since the code only ever tests it with
`instanceof Error`).

Class-field semantics.  The module is an ES module compiled with modern
class-field (define) semantics, the default of the host (Deno compiles with
`useDefineForClassFields: true`, matching native ES2022 classes).  Under
those semantics the field declarations `name!: N;` and `cause?: Err;` of
the derived class are re-defined to `undefined` immediately after
`super(message, { cause })` returns, so:
  - a freshly constructed `Err` has `name === undefined` unless the
    constructor body then assigns a truthy `name` (so an empty-string
    name is never assigned, because `if (name)` is false on an empty string);
  - the `cause` argument passed to the constructor is installed by the
    base `Error` constructor and then clobbered back to `undefined` by the
    derived field declaration `cause?: Err;` — the constructor therefore
    never yields an error whose `cause` is set.
The only way a `cause` actually gets attached in this library is the
explicit assignment `capturedError.cause = new Err(...)` inside
`CaptureErr`, which is ordinary property assignment and is modelled as a
functional update of the `cause` component.

In strict mode (ES modules are strict) assigning a property to a
primitive value throws a `TypeError`; hence the `capturedError.cause = ...`
statements of `CaptureErr` themselves throw when the value thrown or
rejected by the callback is not an object.  The exact message of that
`TypeError` is host-defined; the model uses one representative value.
-/

/-- A JavaScript runtime value, restricted to the shapes the library
inspects: primitives and Error objects.  For an Error object, `name` is
the result of reading the `name` property (`none` models `undefined`),
`message` the result of reading the `message` property, and `cause` the
content of the `cause` property (`Val.undefined` when absent). -/
inductive Val where
  | undefined : Val
  | null : Val
  | bool (b : Bool) : Val
  | num (n : Int) : Val
  | str (s : String) : Val
  | error (name : Option String) (message : String) (cause : Val) : Val
deriving DecidableEq, Repr

/-- The test `value instanceof Error`. -/
def instanceofError : Val → Bool
  | Val.error _ _ _ => true
  | _ => false

/-- The constructor `new Err(name?, message?, cause?)` of src/mod.ts lines 71-82:

  constructor(name?: N, message?: string, cause?: Error) \x7b
    super(message, \x7b cause \x7d);
    if (name) \x7b this.name = name; \x7d
  \x7d

Under define semantics for class fields, `super(message, \x7b cause \x7d)`
installs `message` and `cause`, then the derived field declarations
`name!: N;` and `cause?: Err;` re-define `name` and `cause` to
`undefined`, and finally `if (name) this.name = name` assigns the name
when it is truthy (a provided, non-empty string).  The net result: the
`cause` argument is discarded, and `name` is `undefined` unless a
non-empty name was given. -/
def mkErr (name : Option String) (message : Option String) (cause : Val) : Val :=
  Val.error
    (match name with
     | some n => if n = "" then none else some n
     | none => none)
    (message.getD "")
    Val.undefined

/-- The predicate `isErr(result, name?)` of src/mod.ts lines 107-118:

  if (!(result instanceof Error)) return false;
  if (name === undefined) return true;
  if (result.name === name) return true;
  if (result.cause instanceof Error) \x7b return isErr(result.cause, name); \x7d
  return false;

`none` for the `name` argument models calling with `name` omitted. -/
def isErr (result : Val) (name : Option String) : Bool :=
  match result with
  | Val.error rn _ rc =>
    match name with
    | none => true
    | some tag =>
      if rn = some tag then true
      else
        match rc with
        | Val.error _ _ _ => isErr rc (some tag)
        | _ => false
  | _ => false

/-- The extractor `Ok(result)` of src/mod.ts lines 135-144: returns
`null` when `isErr(result)` holds, the result itself otherwise. -/
def Ok (result : Val) : Val :=
  if isErr result none then Val.null else result

/-- A settled promise: the pending computation a callback may return,
resolved or rejected with a value. -/
inductive PromiseVal where
  | resolved (v : Val) : PromiseVal
  | rejected (v : Val) : PromiseVal
deriving DecidableEq, Repr

/-- The observable behaviour of invoking a callable once: it returns a
plain value, returns a promise, or throws a value.  The same type
describes the observable behaviour of the library functions themselves. -/
inductive CallOutcome where
  | ret (v : Val) : CallOutcome
  | retP (p : PromiseVal) : CallOutcome
  | thr (v : Val) : CallOutcome
deriving DecidableEq, Repr

/-- The `TypeError` raised by a strict-mode assignment
`capturedError.cause = ...` when `capturedError` is a primitive value.
Its message text is host-defined; no theorem depends on it. -/
def primitiveAssignTypeError : Val :=
  Val.error (some "TypeError") "Cannot create property cause on a primitive value" Val.undefined

/-- The function `CaptureErr(name, callback, message?)` of src/mod.ts
lines 160-190, applied to a callback whose single invocation has the
given outcome:

  try \x7b
    const result = callback();
    if (result instanceof Promise) \x7b
      return result.catch((capturedError: Error) => \x7b
        capturedError.cause = new Err(name ?? capturedError.name, message ?? capturedError.message);
        return Promise.resolve(capturedError as Err<N>);
      \x7d) as any;
    \x7d
    return result;
  \x7d catch (capturedError) \x7b
    capturedError.cause = new Err(name, message);
    return capturedError;
  \x7d

`name` is a required string parameter, so `name ?? capturedError.name`
short-circuits to `name`.  The `cause` assignment overwrites whatever
`cause` the captured error previously carried, and the captured error
itself (its own `name` and `message` untouched) is returned, or resolved
in the promise branch.  When the thrown or rejected value is a primitive
the assignment itself throws a `TypeError`, so the call throws, or the
returned promise rejects, with that `TypeError`. -/
def CaptureErr (name : String) (callback : CallOutcome) (message : Option String) : CallOutcome :=
  match callback with
  | CallOutcome.ret v => CallOutcome.ret v
  | CallOutcome.retP p =>
    match p with
    | PromiseVal.resolved v => CallOutcome.retP (PromiseVal.resolved v)
    | PromiseVal.rejected e =>
      match e with
      | Val.error en em _ =>
        CallOutcome.retP (PromiseVal.resolved
          (Val.error en em (mkErr (some name) (some (message.getD em)) Val.undefined)))
      | _ => CallOutcome.retP (PromiseVal.rejected primitiveAssignTypeError)
  | CallOutcome.thr e =>
    match e with
    | Val.error en em _ =>
      CallOutcome.ret (Val.error en em (mkErr (some name) message Val.undefined))
    | _ => CallOutcome.thr primitiveAssignTypeError

/-- The function `UnwrapErr(result)` of src/mod.ts lines 208-213:
throws the result when it is an Error instance, returns it otherwise. -/
def UnwrapErr (result : Val) : CallOutcome :=
  if instanceofError result then CallOutcome.thr result else CallOutcome.ret result

/-- An outcome in which the library function itself surfaced a raised
failure to its caller: it threw synchronously, or the promise it
returned rejects. -/
def wrapperRaises : CallOutcome → Bool
  | CallOutcome.thr _ => true
  | CallOutcome.retP (PromiseVal.rejected _) => true
  | _ => false

/-- A callback outcome whose raised or rejected value, if any, is an
Error instance. -/
def errorsOnly : CallOutcome → Bool
  | CallOutcome.thr v => instanceofError v
  | CallOutcome.retP (PromiseVal.rejected v) => instanceofError v
  | _ => true

/-- Length of the cause chain hanging off a value (0 for a non-error). -/
def chainDepth : Val → Nat
  | Val.error _ _ rc => chainDepth rc + 1
  | _ => 0

/-- The recursion of `isErr` instrumented with fuel: one unit of fuel is
consumed per call, and `none` means the recursion did not complete
within the given fuel.  Used to measure the recursion depth of the
source function, which has no depth cap of its own. -/
def isErrFuel : Nat → Val → Option String → Option Bool
  | 0, _, _ => none
  | fuel + 1, result, name =>
    match result with
    | Val.error rn _ rc =>
      match name with
      | none => some true
      | some tag =>
        if rn = some tag then some true
        else
          match rc with
          | Val.error _ _ _ => isErrFuel fuel rc (some tag)
          | _ => some false
    | _ => some false

/-- An Error object living in a mutable heap: its `cause` property is a
reference to another heap object (`none` when the cause is not an
Error).  Explicit references admit the cyclic chains that property
assignment such as `e.cause = e` can craft at runtime, which the
acyclic inductive type `Val` cannot represent. -/
structure HeapErr where
  name : Option String
  message : String
  cause : Option Nat
deriving DecidableEq, Repr

/-- The recursion of `isErr` on heap-allocated errors, instrumented with
fuel exactly as `isErrFuel`: `none` means the recursion is still running
after consuming the given fuel. -/
def isErrFuelH (h : List HeapErr) : Nat → Nat → Option String → Option Bool
  | 0, _, _ => none
  | fuel + 1, addr, name =>
    match h.get? addr with
    | none => some false
    | some obj =>
      match name with
      | none => some true
      | some tag =>
        if obj.name = some tag then some true
        else
          match obj.cause with
          | some c => isErrFuelH h fuel c name
          | none => some false

/-- A one-object heap in which the error at address 0 is its own cause:
the shape produced at runtime by the assignment `e.cause = e`. -/
def cyclicHeap : List HeapErr :=
  [⟨some "A", "", some 0⟩]

/-- The traversal of `isErr` starting at the given address never
completes, whatever amount of fuel it is given. -/
def isErrDivergesAt (h : List HeapErr) (addr : Nat) (tag : String) : Prop :=
  ∀ n : Nat, isErrFuelH h n addr (some tag) = none

theorem isErr_none_eq_instanceof (v : Val) : isErr v none = instanceofError v := by
  cases v <;> rfl

/-- C3: `CaptureErr` applied to a callback that completes normally with
a plain (non-promise) value returns that result unchanged. -/
theorem captureErr_sync_success (name : String) (v : Val) (msg : Option String) :
    CaptureErr name (CallOutcome.ret v) msg = CallOutcome.ret v := rfl

/-- C2: evaluated at the failing input `cause = new Err("A")`,
`outer = new Err("B", "m", cause)`: the derived field declaration
`cause?: Err;` re-defines the freshly installed cause back to
`undefined`, so the constructed outer error carries no cause at all and
`isErr(outer, "A")` is `false`, although `isErr(outer, "B")` is `true`
and the `isErr` recursion itself does chain-match when a cause is
actually present (as the explicit assignment in `CaptureErr` produces). -/
theorem err_constructor_drops_cause :
    mkErr (some "B") (some "m") (mkErr (some "A") none Val.undefined)
      = Val.error (some "B") "m" Val.undefined
    ∧ isErr (mkErr (some "B") (some "m") (mkErr (some "A") none Val.undefined)) (some "A") = false
    ∧ isErr (mkErr (some "B") (some "m") (mkErr (some "A") none Val.undefined)) (some "B") = true
    ∧ isErr (Val.error (some "B") "m" (Val.error (some "A") "" Val.undefined)) (some "A") = true := by
  refine ⟨rfl, by decide, by decide, by decide⟩

/-- C5 (counterexample): for the empty tag the claim fails: `if (name)`
is false on the empty string, so `new Err("", "m")` keeps `name`
undefined and `isErr(new Err("", "m"), "")` is `false`, where the claim
as stated requires `true`. -/
theorem isErr_empty_tag_cex :
    isErr (mkErr (some "") (some "m") Val.undefined) (some "") = false := by decide

/-- C5 (amended): for every non-empty tag T, `isErr(new Err(T, m), T)`
is true; and for any two distinct tags T1 and T2,
`isErr(new Err(T1, m), T2)` is false (the constructed error carries no
cause to recurse into). -/
theorem isErr_tag_match (t1 t2 m : String) :
    (t1 ≠ "" → isErr (mkErr (some t1) (some m) Val.undefined) (some t1) = true)
    ∧ (t1 ≠ t2 → isErr (mkErr (some t1) (some m) Val.undefined) (some t2) = false) := by
  constructor
  · intro h
    simp [mkErr, isErr, h]
  · intro h
    by_cases h1 : t1 = ""
    · simp [mkErr, isErr, h1]
    · simp [mkErr, isErr, h1, h]

/-- C5 (witness): the amended theorem at tags "A", "B" and message "m". -/
theorem isErr_tag_match_witness :
    ("A" ≠ "" ∧ isErr (mkErr (some "A") (some "m") Val.undefined) (some "A") = true)
    ∧ ("A" ≠ "B" ∧ isErr (mkErr (some "A") (some "m") Val.undefined) (some "B") = false) :=
  ⟨⟨by decide, (isErr_tag_match "A" "B" "m").1 (by decide)⟩,
   ⟨by decide, (isErr_tag_match "A" "B" "m").2 (by decide)⟩⟩

/-- C8: `UnwrapErr` returns any non-Error value unchanged, and for any
Error value it throws that very value — the raised fault is the original
object, hence has the same name, message and cause. -/
theorem unwrapErr_spec (v : Val) :
    (instanceofError v = false → UnwrapErr v = CallOutcome.ret v)
    ∧ (instanceofError v = true → UnwrapErr v = CallOutcome.thr v) := by
  constructor
  · intro h
    simp [UnwrapErr, h]
  · intro h
    simp [UnwrapErr, h]

/-- C8 (witness): `UnwrapErr` at the error `new Err("ReadError", "file missing")`. -/
theorem unwrapErr_spec_witness :
    instanceofError (mkErr (some "ReadError") (some "file missing") Val.undefined) = true
    ∧ UnwrapErr (mkErr (some "ReadError") (some "file missing") Val.undefined)
        = CallOutcome.thr (mkErr (some "ReadError") (some "file missing") Val.undefined) :=
  ⟨by decide,
   (unwrapErr_spec (mkErr (some "ReadError") (some "file missing") Val.undefined)).2 (by decide)⟩

/-- C9: `Ok` returns any non-Error value unchanged, returns the `null`
sentinel for any Error value, never throws (it is a total function), and
its output is never itself an Error value, so the sentinel is
distinguished from every failure value. -/
theorem ok_spec (v : Val) :
    (instanceofError v = false → Ok v = v)
    ∧ (instanceofError v = true → Ok v = Val.null)
    ∧ instanceofError (Ok v) = false := by
  refine ⟨?_, ?_, ?_⟩
  · intro h
    simp [Ok, isErr_none_eq_instanceof, h]
  · intro h
    simp [Ok, isErr_none_eq_instanceof, h]
  · cases v <;> rfl

/-- C9 (witness): `Ok` at the error `new Err("E")` yields the sentinel. -/
theorem ok_spec_witness :
    instanceofError (mkErr (some "E") none Val.undefined) = true
    ∧ Ok (mkErr (some "E") none Val.undefined) = Val.null :=
  ⟨by decide, (ok_spec (mkErr (some "E") none Val.undefined)).2.1 (by decide)⟩

/-- C1 (counterexample): for the empty tag the claim fails: calling
`CaptureErr("", callback)` on a callback that throws `new Error("x")`
returns the thrown error with `cause = new Err("", undefined)`, but
`if (name)` never assigns an empty name, so no node of the chain has
name `""` and `isErr(result, "")` is `false`, where the claim as stated
requires `true`. -/
theorem captureErr_empty_tag_cex :
    CaptureErr "" (CallOutcome.thr (Val.error (some "Error") "x" Val.undefined)) none
      = CallOutcome.ret (Val.error (some "Error") "x" (Val.error none "" Val.undefined))
    ∧ isErr (Val.error (some "Error") "x" (Val.error none "" Val.undefined)) (some "") = false := by
  refine ⟨rfl, by decide⟩

/-- C1 (amended): for every non-empty tag and every callback that throws
an Error instance, `CaptureErr` returns (rather than propagates) a
failure value satisfying `isErr(result, tag) = true`: the thrown error
comes back with a fresh `Err(tag, message)` attached as its cause, and
the tag matches on that cause node (or on the error itself). -/
theorem captureErr_sync_throw_tagged (tag : String) (en : Option String) (em : String)
    (ec : Val) (msg : Option String) (h : tag ≠ "") :
    CaptureErr tag (CallOutcome.thr (Val.error en em ec)) msg
      = CallOutcome.ret (Val.error en em (Val.error (some tag) (msg.getD "") Val.undefined))
    ∧ isErr (Val.error en em (Val.error (some tag) (msg.getD "") Val.undefined)) (some tag) = true := by
  constructor
  · simp [CaptureErr, mkErr, h]
  · by_cases he : en = some tag
    · simp [isErr, he]
    · simp [isErr, he]

/-- C1 (witness): the amended theorem at tag "T" and a thrown `new Error("x")`. -/
theorem captureErr_sync_throw_tagged_witness :
    "T" ≠ ""
    ∧ (CaptureErr "T" (CallOutcome.thr (Val.error (some "Error") "x" Val.undefined)) none
        = CallOutcome.ret (Val.error (some "Error") "x" (Val.error (some "T") "" Val.undefined))
      ∧ isErr (Val.error (some "Error") "x" (Val.error (some "T") "" Val.undefined)) (some "T") = true) :=
  ⟨by decide,
   captureErr_sync_throw_tagged "T" (some "Error") "x" Val.undefined none (by decide)⟩

/-- C6 (counterexample): a rejection value need not be an Error; when the
wrapped promise rejects with the primitive string "boom", the strict-mode
assignment `capturedError.cause = ...` inside the catch continuation
itself throws a TypeError, so the promise returned by `CaptureErr`
rejects, where the claim as stated requires it to resolve. -/
theorem captureErr_async_primitive_cex :
    CaptureErr "T" (CallOutcome.retP (PromiseVal.rejected (Val.str "boom"))) none
      = CallOutcome.retP (PromiseVal.rejected primitiveAssignTypeError)
    ∧ wrapperRaises (CaptureErr "T" (CallOutcome.retP (PromiseVal.rejected (Val.str "boom"))) none)
        = true := ⟨rfl, rfl⟩

/-- C6 (amended): for every non-empty tag and every asynchronous callback
whose promise rejects with an Error instance, `CaptureErr` returns a
pending computation that resolves (never rejects) to a failure value
satisfying `isErr(result, tag) = true`: the rejection error is resolved
with a fresh `Err(tag, message ?? its own message)` attached as cause. -/
theorem captureErr_async_reject_tagged (tag : String) (en : Option String) (em : String)
    (ec : Val) (msg : Option String) (h : tag ≠ "") :
    CaptureErr tag (CallOutcome.retP (PromiseVal.rejected (Val.error en em ec))) msg
      = CallOutcome.retP (PromiseVal.resolved
          (Val.error en em (Val.error (some tag) (msg.getD em) Val.undefined)))
    ∧ isErr (Val.error en em (Val.error (some tag) (msg.getD em) Val.undefined)) (some tag) = true := by
  constructor
  · simp [CaptureErr, mkErr, h]
  · by_cases he : en = some tag
    · simp [isErr, he]
    · simp [isErr, he]

/-- C6 (witness): the amended theorem at tag "T" and a promise rejected
with `new Error("boom")`. -/
theorem captureErr_async_reject_tagged_witness :
    "T" ≠ ""
    ∧ (CaptureErr "T" (CallOutcome.retP (PromiseVal.rejected (Val.error (some "Error") "boom" Val.undefined))) none
        = CallOutcome.retP (PromiseVal.resolved
            (Val.error (some "Error") "boom" (Val.error (some "T") "boom" Val.undefined)))
      ∧ isErr (Val.error (some "Error") "boom" (Val.error (some "T") "boom" Val.undefined)) (some "T") = true) :=
  ⟨by decide,
   captureErr_async_reject_tagged "T" (some "Error") "boom" Val.undefined none (by decide)⟩

/-- C7 (counterexample): a callback may throw a value that is not an
Error; when it throws the primitive string "boom", the strict-mode
assignment `capturedError.cause = ...` in the catch block itself throws
a TypeError, so invoking `CaptureErr` raises, where the claim as stated
says the wrapper never itself raises. -/
theorem captureErr_primitive_throw_cex :
    CaptureErr "T" (CallOutcome.thr (Val.str "boom")) none
      = CallOutcome.thr primitiveAssignTypeError
    ∧ wrapperRaises (CaptureErr "T" (CallOutcome.thr (Val.str "boom")) none) = true := ⟨rfl, rfl⟩

/-- C7 (amended): whenever the value the callback throws, or its promise
rejects with, is an Error instance (in particular whenever the callback
does not fail at all), `CaptureErr` never itself raises: it neither
throws nor returns a rejecting promise; the failure is handed back as an
ordinary value. -/
theorem captureErr_no_raise (name : String) (msg : Option String) (co : CallOutcome)
    (h : errorsOnly co = true) :
    wrapperRaises (CaptureErr name co msg) = false := by
  cases co with
  | ret v => rfl
  | retP p =>
    cases p with
    | resolved v => rfl
    | rejected e => cases e <;> simp_all [errorsOnly, instanceofError, CaptureErr, wrapperRaises]
  | thr e => cases e <;> simp_all [errorsOnly, instanceofError, CaptureErr, wrapperRaises]

/-- C7 (witness): the amended theorem for a callback throwing `new Error("x")`. -/
theorem captureErr_no_raise_witness :
    errorsOnly (CallOutcome.thr (Val.error (some "Error") "x" Val.undefined)) = true
    ∧ wrapperRaises
        (CaptureErr "T" (CallOutcome.thr (Val.error (some "Error") "x" Val.undefined)) none) = false :=
  ⟨by decide,
   captureErr_no_raise "T" none (CallOutcome.thr (Val.error (some "Error") "x" Val.undefined)) (by decide)⟩

/-- C10 (counterexample): the asynchronous branch does not perform the
same mutation as the synchronous one: it attaches
`new Err(name, message ?? e.message)`, not `new Err(name, message)`.
With no override message and a rejection error whose message is "boom",
the attached cause has message "boom", while `new Err("T", undefined)`
has message "" — so the attached cause differs from the
`Err(name, message)` the claim asserts. -/
theorem captureErr_async_mutation_cex :
    CaptureErr "T" (CallOutcome.retP (PromiseVal.rejected (Val.error (some "E") "boom" Val.undefined))) none
      = CallOutcome.retP (PromiseVal.resolved
          (Val.error (some "E") "boom" (Val.error (some "T") "boom" Val.undefined)))
    ∧ Val.error (some "T") "boom" Val.undefined ≠ mkErr (some "T") none Val.undefined := by
  refine ⟨rfl, by decide⟩

/-- C10 (amended): when the callback throws an Error e, `CaptureErr`
returns e itself with name and message unchanged and its `cause` field
overwritten by `new Err(name, message)`, discarding whatever cause e
previously carried; the asynchronous branch resolves with the rejection
error mutated the analogous way, except that the attached cause is
`new Err(name, message ?? e.message)` — its message defaults to the
message of the rejection error, not to the empty string. -/
theorem captureErr_mutation (name : String) (msg : Option String) (en : Option String)
    (em : String) (ec : Val) :
    CaptureErr name (CallOutcome.thr (Val.error en em ec)) msg
      = CallOutcome.ret (Val.error en em (mkErr (some name) msg Val.undefined))
    ∧ CaptureErr name (CallOutcome.retP (PromiseVal.rejected (Val.error en em ec))) msg
        = CallOutcome.retP (PromiseVal.resolved
            (Val.error en em (mkErr (some name) (some (msg.getD em)) Val.undefined))) :=
  ⟨rfl, rfl⟩

/-- C4 (counterexample): the recursion of `isErr` has no depth cap: on
the cyclic cause chain crafted by the assignment `e.cause = e`, the
traversal never completes however much fuel it is given — a crafted
cyclic cause chain does cause unbounded recursion, and no depth bound
exists past which the traversal is treated as no match. -/
theorem isErr_cyclic_diverges : isErrDivergesAt cyclicHeap 0 "B" := by
  intro n
  induction n with
  | zero => rfl
  | succ k ih => simpa [isErrFuelH, cyclicHeap] using ih

/-- C4 (amended): on every actual error value (whose cause chain is
finite and acyclic by construction), the recursion of `isErr` terminates
with its depth bounded by the chain length: given any fuel exceeding the
chain depth, the fuel-instrumented recursion completes and agrees with
`isErr`.  The code itself has no recursion cap, so this bound comes from
the input, not from the implementation. -/
theorem isErr_terminates_acyclic (v : Val) :
    ∀ (n : Nat) (tag : Option String), chainDepth v < n →
      isErrFuel n v tag = some (isErr v tag) := by
  induction v with
  | undefined =>
    intro n tag h
    cases n with
    | zero => exact absurd h (Nat.not_lt_zero _)
    | succ k => rfl
  | null =>
    intro n tag h
    cases n with
    | zero => exact absurd h (Nat.not_lt_zero _)
    | succ k => rfl
  | bool b =>
    intro n tag h
    cases n with
    | zero => exact absurd h (Nat.not_lt_zero _)
    | succ k => rfl
  | num i =>
    intro n tag h
    cases n with
    | zero => exact absurd h (Nat.not_lt_zero _)
    | succ k => rfl
  | str s =>
    intro n tag h
    cases n with
    | zero => exact absurd h (Nat.not_lt_zero _)
    | succ k => rfl
  | error rn m rc ih =>
    intro n tag h
    cases n with
    | zero => exact absurd h (Nat.not_lt_zero _)
    | succ k =>
      cases tag with
      | none => rfl
      | some t =>
        by_cases hrt : rn = some t
        · subst hrt
          simp [isErrFuel, isErr]
        · simp only [isErrFuel, isErr, if_neg hrt]
          cases rc with
          | error rn2 m2 rc2 =>
            apply ih
            simp only [chainDepth] at h ⊢
            omega
          | undefined => rfl
          | null => rfl
          | bool b => rfl
          | num i => rfl
          | str s => rfl

/-- C4 (witness): the amended theorem on the two-node chain
`new Error("boom")` wearing cause `Err("A")`, with fuel 3. -/
theorem isErr_terminates_acyclic_witness :
    chainDepth (Val.error (some "B") "m" (Val.error (some "A") "" Val.undefined)) < 3
    ∧ isErrFuel 3 (Val.error (some "B") "m" (Val.error (some "A") "" Val.undefined)) (some "A")
        = some (isErr (Val.error (some "B") "m" (Val.error (some "A") "" Val.undefined)) (some "A")) :=
  ⟨by decide,
   isErr_terminates_acyclic (Val.error (some "B") "m" (Val.error (some "A") "" Val.undefined))
     3 (some "A") (by decide)⟩
